import Mathlib

/-!
Shallow embedding of the request-execution pipeline of the
`docusign_alternative_sdk` Python client (`client.py`), together with the
parts of the `requests`/`urllib3` transport semantics the client relies on
(header merging, multipart content-type selection, the retry loop).

Header maps are modelled as association lists.  Python `dict` operations
(the per-call `request_headers` dictionary) use exact string keys;
`requests.structures.CaseInsensitiveDict` operations (session headers,
response headers, merged request headers) compare keys case-insensitively.
-/

namespace Signtusk

/-! ### Association-list dictionaries -/

/-- Exact-key lookup, Python `dict.get`. -/
def dictGet (m : List (String × String)) (k : String) : Option String :=
  (m.find? (fun p => p.fst == k)).map (fun p => p.snd)

/-- Exact-key membership, Python `k in d`. -/
def dictContains (m : List (String × String)) (k : String) : Bool :=
  (m.find? (fun p => p.fst == k)).isSome

/-- Exact-key insertion/replacement, Python `d[k] = v` (keeps position of an
existing key, appends a new one, as a Python dict does). -/
def dictSet (m : List (String × String)) (k v : String) : List (String × String) :=
  if dictContains m k then
    m.map (fun p => if p.fst == k then (k, v) else p)
  else m ++ [(k, v)]

/-- Exact-key deletion, Python `del d[k]`. -/
def dictErase (m : List (String × String)) (k : String) : List (String × String) :=
  m.filter (fun p => p.fst != k)

/-- Python `d.update(other)`: later entries win. -/
def dictUpdate (m adds : List (String × String)) : List (String × String) :=
  adds.foldl (fun acc p => dictSet acc p.fst p.snd) m

/-- Python `str.lower()` (character-wise case folding, as
`CaseInsensitiveDict` applies to keys). -/
def lowerStr (s : String) : String :=
  ⟨s.data.map Char.toLower⟩

/-- Case-insensitive lookup (`CaseInsensitiveDict.get` / `__getitem__`). -/
def ciLookup (m : List (String × String)) (k : String) : Option String :=
  (m.find? (fun p => lowerStr p.fst == lowerStr k)).map (fun p => p.snd)

/-- Case-insensitive deletion (`del cid[k]`). -/
def ciErase (m : List (String × String)) (k : String) : List (String × String) :=
  m.filter (fun p => lowerStr p.fst != lowerStr k)

/-- Case-insensitive insertion/replacement (`cid[k] = v`). -/
def ciSet (m : List (String × String)) (k v : String) : List (String × String) :=
  ciErase m k ++ [(k, v)]

/-! ### Error taxonomy -/

/-- Modelled from the spec: the error-kind taxonomy of §4.4/§7 (the repository
file `exceptions.py`, which declares the exception classes, is not under
`src/`). -/
inductive ErrorKind where
  | AuthenticationError
  | AuthorizationError
  | ValidationError
  | NotFoundError
  | ConflictError
  | RateLimitError
  | ServerError
  | GenericApiError
  | NetworkError
  | TimeoutError
  | ConfigurationError
  deriving DecidableEq

/-- A typed error value: §3 Outcome / TypedError. -/
structure TypedError where
  kind : ErrorKind
  message : String
  statusCode : Option Nat
  requestId : Option String
  retryable : Bool
  deriving DecidableEq

/-- Modelled from the spec: `ConfigurationError(msg)` of `exceptions.py`. -/
def configurationError (msg : String) : TypedError :=
  { kind := ErrorKind.ConfigurationError, message := msg,
    statusCode := none, requestId := none, retryable := false }

/-- Modelled from the spec: `TimeoutError(msg)` of `exceptions.py`. -/
def timeoutError (msg : String) : TypedError :=
  { kind := ErrorKind.TimeoutError, message := msg,
    statusCode := none, requestId := none, retryable := false }

/-- Modelled from the spec: `NetworkError(msg)` of `exceptions.py`. -/
def networkError (msg : String) : TypedError :=
  { kind := ErrorKind.NetworkError, message := msg,
    statusCode := none, requestId := none, retryable := false }

/-- The parsed JSON error body; only its `message` field is consumed by the
error construction. `message = none` models a JSON object with no message
field. -/
structure ErrorPayload where
  message : Option String := none
  deriving DecidableEq

/-- Modelled from the spec: the status-code → kind table of §4.4
(`exceptions.py` is not under `src/`): 401→Authentication, 403→Authorization,
400/422→Validation, 404→NotFound, 409→Conflict, 429→RateLimit, 5xx→Server,
anything else → generic platform error. -/
def statusToKind (s : Nat) : ErrorKind :=
  if s = 401 then ErrorKind.AuthenticationError
  else if s = 403 then ErrorKind.AuthorizationError
  else if s = 400 ∨ s = 422 then ErrorKind.ValidationError
  else if s = 404 then ErrorKind.NotFoundError
  else if s = 409 then ErrorKind.ConflictError
  else if s = 429 then ErrorKind.RateLimitError
  else if 500 ≤ s ∧ s ≤ 599 then ErrorKind.ServerError
  else ErrorKind.GenericApiError

/-- Modelled from the spec: `create_error_from_response(status_code,
error_data, request_id)` of `exceptions.py` (§4.4): the kind follows the
status table, the message comes from the body's `message` field with a
generic fallback, the error carries the original status code and the request
id, and `retryable` is true only for 429 and 5xx. -/
def create_error_from_response (status : Nat) (payload : ErrorPayload)
    (requestId : Option String) : TypedError :=
  { kind := statusToKind status
    message := payload.message.getD "Unknown error"
    statusCode := some status
    requestId := requestId
    retryable := decide (status = 429) || decide (500 ≤ status ∧ status ≤ 599) }

/-! ### Configuration -/

/-- Modelled from the spec: the OAuth credential object of §3 (`config.py` is
not under `src/`); its contents are out of scope, only its presence matters
(a Python object is truthy). -/
structure OAuthCredential where
  clientId : String := ""
  clientSecret : String := ""
  deriving DecidableEq

/-- Modelled from the spec: the JWT credential object of §3 (`config.py` is
not under `src/`); `client.py` reads its `token` attribute. -/
structure JwtCredential where
  token : Option String := none
  deriving DecidableEq

/-- Modelled from the spec: `SDKConfiguration` of `config.py` (§3), with the
attribute names `client.py` reads.  `timeout`/`retry_delay` are milliseconds.
An absent `base_url` is the empty string (Python falsy). -/
structure SDKConfiguration where
  api_key : Option String := none
  oauth : Option OAuthCredential := none
  jwt : Option JwtCredential := none
  base_url : String := ""
  environment : String := ""
  timeout : Nat := 30000
  retries : Nat := 3
  retry_delay : Nat := 1000
  deriving DecidableEq

/-- Python truthiness of an optional string: `None` and `""` are falsy. -/
def truthyOptStr : Option String → Bool
  | none => false
  | some s => !(s == "")

/-! ### Responses and the transport interface -/

/-- An HTTP response as surfaced by the transport.  `text` is the raw body;
`json` is the result of `response.json()`: `none` models a `ValueError`
(body not valid JSON). -/
structure HttpResponse where
  statusCode : Nat
  headers : List (String × String)
  text : String := ""
  json : Option ErrorPayload := none
  deriving DecidableEq

/-- What a call to `session.request` can produce, after the transport's own
retries: a response, or one of the `requests` exception families the client
catches.  `requests.Timeout` is matched before `requests.ConnectionError`
(so a connect timeout, which subclasses both, is `timeoutExc`);
`requestExc` is any other `requests.RequestException`. -/
inductive TransportResult where
  | response (r : HttpResponse)
  | timeoutExc
  | connectionExc (msg : String)
  | requestExc (msg : String)
  deriving DecidableEq

/-! ### Transport session (`_create_session`) -/

/-- The `urllib3.util.retry.Retry` strategy as configured by
`_create_session`. -/
structure RetryState where
  total : Nat
  backoff_factor : ℚ
  status_forcelist : List Nat
  allowed_methods : List String
  deriving DecidableEq

/-- The `requests.Session`: case-insensitive default headers plus the mounted
retry adapter. -/
structure Session where
  headers : List (String × String)
  retry : RetryState
  deriving DecidableEq

/-- The default headers a fresh `requests.Session` starts with
(`requests.utils.default_headers()`); `_create_session` overlays its own. -/
def requests_default_headers : List (String × String) :=
  [("User-Agent", "python-requests/2.x"),
   ("Accept-Encoding", "gzip, deflate"),
   ("Accept", "*/*"),
   ("Connection", "keep-alive")]

/-- `DocuSignAlternativeSDK._create_session`: overlay the SDK default headers,
set the Authorization header from the API key (else from a truthy JWT token),
and configure the retry strategy. -/
def create_session (config : SDKConfiguration) : Session :=
  let h := [("Content-Type", "application/json"),
            ("User-Agent", "DocuSignAlternative-Python-SDK/1.0.0"),
            ("Accept", "application/json")].foldl
             (fun acc p => ciSet acc p.fst p.snd) requests_default_headers
  let h :=
    if truthyOptStr config.api_key then
      ciSet h "Authorization" ("Bearer " ++ config.api_key.getD "")
    else
      match config.jwt with
      | some j =>
          if truthyOptStr j.token then
            ciSet h "Authorization" ("Bearer " ++ j.token.getD "")
          else h
      | none => h
  { headers := h
    retry :=
      { total := config.retries
        backoff_factor := (config.retry_delay : ℚ) / 1000
        status_forcelist := [429, 500, 502, 503, 504]
        allowed_methods := ["HEAD", "GET", "PUT", "DELETE", "OPTIONS", "TRACE", "POST"] } }

/-! ### urllib3 retry semantics -/

/-- `urllib3.util.retry.Retry.DEFAULT_BACKOFF_MAX`. -/
def DEFAULT_BACKOFF_MAX : ℚ := 120

/-- `Retry.get_backoff_time` after `consecutive` consecutive errors:
zero for the first retry, then `backoff_factor * 2 ^ (consecutive - 1)`
capped at `DEFAULT_BACKOFF_MAX`. -/
def get_backoff_time (r : RetryState) (consecutive : Nat) : ℚ :=
  if consecutive ≤ 1 then 0
  else min DEFAULT_BACKOFF_MAX (r.backoff_factor * 2 ^ (consecutive - 1))

/-- `Retry.is_retry`: the method must be allowed and the status in the
forcelist. -/
def retryableStatus (r : RetryState) (method : String) (s : Nat) : Bool :=
  r.allowed_methods.contains method && r.status_forcelist.contains s

/-- One attempt's outcome as seen inside the transport's retry loop. -/
inductive AttemptOutcome where
  | status (resp : HttpResponse)
  | connFail (msg : String)
  deriving DecidableEq

/-- The urllib3 retry loop for one logical request: `trace` lists the
per-attempt outcomes, `left` is the remaining retry budget (starting at
`Retry.total`).  Returns what `session.request` surfaces together with the
number of attempts consumed.  A retryable status with an exhausted budget
raises `MaxRetryError(ResponseError)`, which `requests` re-raises as a
`RetryError` (a plain `RequestException`); an exhausted budget on a
connection failure surfaces as `requests.ConnectionError`. -/
def runRetries (r : RetryState) (method : String) :
    List AttemptOutcome → Nat → TransportResult × Nat
  | [], _ => (TransportResult.requestExc "exhausted attempt trace", 0)
  | AttemptOutcome.status resp :: rest, left =>
      if retryableStatus r method resp.statusCode then
        if 0 < left then
          let next := runRetries r method rest (left - 1)
          (next.fst, next.snd + 1)
        else (TransportResult.requestExc "too many retries with status", 1)
      else (TransportResult.response resp, 1)
  | AttemptOutcome.connFail m :: rest, left =>
      if 0 < left then
        let next := runRetries r method rest (left - 1)
        (next.fst, next.snd + 1)
      else (TransportResult.connectionExc m, 1)

/-! ### Configuration validation and construction -/

/-- The fixed environment table of `_validate_config`. -/
def base_urls : List (String × String) :=
  [("development", "https://api-dev.docusign-alternative.com"),
   ("staging", "https://api-staging.docusign-alternative.com"),
   ("production", "https://api.docusign-alternative.com")]

/-- `base_urls.get(environment, base_urls["production"])`. -/
def resolveBaseUrl (env : String) : String :=
  (dictGet base_urls env).getD "https://api.docusign-alternative.com"

/-- `DocuSignAlternativeSDK._validate_config`: fail when no credential form is
truthy; default an empty base URL from the environment table. -/
def validate_config (config : SDKConfiguration) : Except TypedError SDKConfiguration :=
  if !truthyOptStr config.api_key && !config.oauth.isSome && !config.jwt.isSome then
    Except.error (configurationError "API key, OAuth configuration, or JWT token is required")
  else
    Except.ok (if config.base_url = ""
      then { config with base_url := resolveBaseUrl config.environment }
      else config)

/-- The client state: the stored configuration and the session. -/
structure SDKState where
  config : SDKConfiguration
  session : Session
  deriving DecidableEq

/-- `DocuSignAlternativeSDK.__init__`: validate the configuration, then build
the session from the validated configuration. -/
def initSDK (config : SDKConfiguration) : Except TypedError SDKState :=
  (validate_config config).map
    (fun cfg => { config := cfg, session := create_session cfg })

/-! ### URL joining -/

/-- Python `s.rstrip(char)` for the slash character. -/
def rstripSlash (s : String) : String :=
  ⟨(s.data.reverse.dropWhile (fun c => c == '/')).reverse⟩

/-- Python `s.lstrip(char)` for the slash character. -/
def lstripSlash (s : String) : String :=
  ⟨s.data.dropWhile (fun c => c == '/')⟩

/-- The URL join of `request`:
`f-string base_url.rstrip(slash) / url.lstrip(slash)`. -/
def full_url (base path : String) : String :=
  rstripSlash base ++ "/" ++ lstripSlash path

/-! ### The request pipeline (`request`) -/

/-- The keyword arguments of `request`.  Bodies and query parameters are
opaque key/value lists; only their presence matters to the pipeline. -/
structure Kwargs where
  data : Option (List (String × String)) := none
  json : Option (List (String × String)) := none
  params : Option (List (String × String)) := none
  headers : Option (List (String × String)) := none
  files : Option (List (String × String)) := none
  deriving DecidableEq

/-- What `request` hands to `session.request`. -/
structure Dispatch where
  method : String
  url : String
  headers : List (String × String)
  data : Option (List (String × String))
  json : Option (List (String × String))
  params : Option (List (String × String))
  files : Option (List (String × String))
  timeout : ℚ
  deriving DecidableEq

/-- The per-call `request_headers` dictionary: a fresh dict, updated from the
caller's headers; when files are present, `Content-Type` is deleted from it
(exact-key Python dict deletion). -/
def buildRequestHeaders (headers : Option (List (String × String)))
    (hasFiles : Bool) : List (String × String) :=
  let request_headers :=
    match headers with
    | none => []
    | some h => dictUpdate [] h
  if hasFiles then
    if dictContains request_headers "Content-Type" then
      dictErase request_headers "Content-Type"
    else request_headers
  else request_headers

/-- Python `str.upper()` (character-wise, `method.upper()`). -/
def upperStr (s : String) : String :=
  ⟨s.data.map Char.toUpper⟩

/-- The arguments `request` passes to `session.request`: uppercased method,
joined URL, the per-call header dict, the payloads, and
`timeout = config.timeout / 1000` seconds. -/
def prepareDispatch (st : SDKState) (method url : String) (kw : Kwargs) : Dispatch :=
  { method := upperStr method
    url := full_url st.config.base_url url
    headers := buildRequestHeaders kw.headers kw.files.isSome
    data := kw.data
    json := kw.json
    params := kw.params
    files := kw.files
    timeout := (st.config.timeout : ℚ) / 1000 }

/-- `requests.sessions.merge_setting` for headers: start from the session's
case-insensitive defaults and overlay the per-call headers. -/
def merge_headers (sessionHeaders callHeaders : List (String × String)) :
    List (String × String) :=
  callHeaders.foldl (fun acc p => ciSet acc p.fst p.snd) sessionHeaders

/-- Python truthiness of the optional form-data mapping. -/
def pyTruthyForm : Option (List (String × String)) → Bool
  | none => false
  | some l => !l.isEmpty

/-- `PreparedRequest.prepare_body`: choose a body content type (multipart for
files, JSON for a json body without data, urlencoded for form data) and set
it only when no content-type header is already present (case-insensitive). -/
def prepareContentType (merged : List (String × String)) (d : Dispatch) :
    List (String × String) :=
  if d.files.isSome then
    if (ciLookup merged "Content-Type").isNone then
      ciSet merged "Content-Type" "multipart/form-data; boundary=generated"
    else merged
  else if d.json.isSome && !pyTruthyForm d.data then
    if (ciLookup merged "Content-Type").isNone then
      ciSet merged "Content-Type" "application/json"
    else merged
  else if pyTruthyForm d.data then
    if (ciLookup merged "Content-Type").isNone then
      ciSet merged "Content-Type" "application/x-www-form-urlencoded"
    else merged
  else merged

/-- The headers the prepared HTTP request actually carries on the wire:
session defaults merged with the per-call dict, then the body content-type
rule. -/
def outgoingRequestHeaders (st : SDKState) (method url : String) (kw : Kwargs) :
    List (String × String) :=
  let d := prepareDispatch st method url kw
  prepareContentType (merge_headers st.session.headers d.headers) d

/-- The response inspection of `request`: `response.ok` is true outside
400–599; otherwise read `x-request-id` (case-insensitive response headers),
parse the body as JSON falling back to
`message = response.text or "Unknown error"`, and raise the typed error. -/
def handleResponse (r : HttpResponse) : Except TypedError HttpResponse :=
  if r.statusCode < 400 ∨ 600 ≤ r.statusCode then Except.ok r
  else
    let request_id := ciLookup r.headers "x-request-id"
    let error_data : ErrorPayload :=
      match r.json with
      | some p => p
      | none => { message := some (if r.text = "" then "Unknown error" else r.text) }
    Except.error (create_error_from_response r.statusCode error_data request_id)

/-- `DocuSignAlternativeSDK.request`: build the dispatch, run it through the
transport (a function from the dispatched request to what `session.request`
surfaces), inspect a response, and translate transport exceptions
(`Timeout` → TimeoutError, `ConnectionError` → NetworkError, any other
`RequestException` → NetworkError).  The client state is returned unchanged:
the method assigns to neither `self.config` nor `self.session`. -/
def requestOp (st : SDKState) (method url : String) (kw : Kwargs)
    (transport : Dispatch → TransportResult) :
    Except TypedError HttpResponse × SDKState :=
  let d := prepareDispatch st method url kw
  let result :=
    match transport d with
    | TransportResult.response r => handleResponse r
    | TransportResult.timeoutExc => Except.error (timeoutError "Request timeout")
    | TransportResult.connectionExc m =>
        Except.error (networkError ("Network error: " ++ m))
    | TransportResult.requestExc m =>
        Except.error (networkError ("Request error: " ++ m))
  (result, st)

/-- `get`. -/
def getOp (st : SDKState) (url : String) (kw : Kwargs)
    (transport : Dispatch → TransportResult) :
    Except TypedError HttpResponse × SDKState :=
  requestOp st "GET" url kw transport

/-- `post`. -/
def postOp (st : SDKState) (url : String) (kw : Kwargs)
    (transport : Dispatch → TransportResult) :
    Except TypedError HttpResponse × SDKState :=
  requestOp st "POST" url kw transport

/-- `put`. -/
def putOp (st : SDKState) (url : String) (kw : Kwargs)
    (transport : Dispatch → TransportResult) :
    Except TypedError HttpResponse × SDKState :=
  requestOp st "PUT" url kw transport

/-- `patch`. -/
def patchOp (st : SDKState) (url : String) (kw : Kwargs)
    (transport : Dispatch → TransportResult) :
    Except TypedError HttpResponse × SDKState :=
  requestOp st "PATCH" url kw transport

/-- `delete`. -/
def deleteOp (st : SDKState) (url : String) (kw : Kwargs)
    (transport : Dispatch → TransportResult) :
    Except TypedError HttpResponse × SDKState :=
  requestOp st "DELETE" url kw transport

/-- The keyword arguments `upload_file` builds:
`files = {"file": file_data}` and `data = additional_data or {}`. -/
def upload_kwargs (file_data : String)
    (additional_data : Option (List (String × String))) : Kwargs :=
  { files := some [("file", file_data)], data := some (additional_data.getD []) }

/-- `upload_file`: posts with the files payload. -/
def upload_file (st : SDKState) (url : String) (file_data : String)
    (additional_data : Option (List (String × String)))
    (transport : Dispatch → TransportResult) :
    Except TypedError HttpResponse × SDKState :=
  postOp st url (upload_kwargs file_data additional_data) transport

/-! ### Auth mutation -/

/-- `set_auth_token`: store the token as the API key and set the session's
Authorization header. -/
def set_auth_token (st : SDKState) (token : String) : SDKState :=
  { config := { st.config with api_key := some token }
    session := { st.session with
      headers := ciSet st.session.headers "Authorization" ("Bearer " ++ token) } }

/-- `clear_auth`: drop the stored API key and delete the session's
Authorization header when present. -/
def clear_auth (st : SDKState) : SDKState :=
  { config := { st.config with api_key := none }
    session := { st.session with
      headers :=
        if (ciLookup st.session.headers "Authorization").isSome then
          ciErase st.session.headers "Authorization"
        else st.session.headers } }

/-! ### Concrete fixtures -/

/-- A valid configuration with an API key and an explicit base URL. -/
def cfg0 : SDKConfiguration :=
  { api_key := some "test-api-key", oauth := none, jwt := none,
    base_url := "https://api.example.com", environment := "production",
    timeout := 30000, retries := 3, retry_delay := 1000 }

/-- A constructed client for `cfg0`. -/
def st0 : SDKState :=
  { config := cfg0, session := create_session cfg0 }

/-- A 304 Not Modified response (surfaced to the caller by `requests`). -/
def resp304 : HttpResponse :=
  { statusCode := 304, headers := [], text := "", json := none }

/-- The §8 example response: 404 with a JSON error body and a request id. -/
def resp404 : HttpResponse :=
  { statusCode := 404,
    headers := [("x-request-id", "abc123")],
    text := "\x7b\"message\": \"not found\"\x7d",
    json := some { message := some "not found" } }

/-- A created-successfully response. -/
def resp201 : HttpResponse :=
  { statusCode := 201, headers := [("x-request-id", "w1")], text := "ok", json := none }

/-- A 503 response, retryable under the configured forcelist. -/
def resp503 : HttpResponse :=
  { statusCode := 503, headers := [], text := "", json := none }

/-- A plain 200 response. -/
def resp200 : HttpResponse :=
  { statusCode := 200, headers := [], text := "", json := none }

/-- A configuration with no credential form at all. -/
def cfgNoCred : SDKConfiguration :=
  { api_key := none, oauth := none, jwt := none, base_url := "",
    environment := "development", timeout := 30000, retries := 3,
    retry_delay := 1000 }

/-- A credentialled configuration with an empty base URL and an environment
outside the fixed table. -/
def cfgEnvDefault : SDKConfiguration :=
  { api_key := some "k", oauth := none, jwt := none, base_url := "",
    environment := "weird", timeout := 30000, retries := 3,
    retry_delay := 1000 }

/-! ### Helper lemmas on the dictionary model -/

theorem find?_filter_of_imp {α : Type} (p q : α → Bool)
    (h : ∀ a, p a = true → q a = true) :
    ∀ l : List α, (l.filter q).find? p = l.find? p := by
  intro l
  induction l with
  | nil => rfl
  | cons a t ih =>
    by_cases hq : q a = true
    · rw [List.filter_cons_of_pos hq]
      by_cases hp : p a = true
      · rw [List.find?_cons_of_pos _ hp, List.find?_cons_of_pos _ hp]
      · rw [List.find?_cons_of_neg _ hp, List.find?_cons_of_neg _ hp, ih]
    · have hp : ¬ p a = true := fun hpa => hq (h a hpa)
      rw [List.filter_cons_of_neg hq, List.find?_cons_of_neg _ hp, ih]

theorem find?_append_single_of_neg {α : Type} (p : α → Bool) (x : α)
    (h : ¬ p x = true) :
    ∀ l : List α, (l ++ [x]).find? p = l.find? p := by
  intro l
  induction l with
  | nil => rw [List.nil_append, List.find?_cons_of_neg _ h]
  | cons a t ih =>
    by_cases hp : p a = true
    · rw [List.cons_append, List.find?_cons_of_pos _ hp, List.find?_cons_of_pos _ hp]
    · rw [List.cons_append, List.find?_cons_of_neg _ hp, List.find?_cons_of_neg _ hp, ih]

theorem find?_ciErase_self (m : List (String × String)) (k : String) :
    (ciErase m k).find? (fun p => lowerStr p.fst == lowerStr k) = none := by
  apply List.find?_eq_none.mpr
  intro p hp
  have h2 := (List.mem_filter.mp hp).2
  simpa using h2

theorem ciLookup_ciErase_self (m : List (String × String)) (k : String) :
    ciLookup (ciErase m k) k = none := by
  unfold ciLookup
  rw [find?_ciErase_self]
  rfl

theorem ciLookup_ciErase_ne (m : List (String × String)) (kDel k : String)
    (h : lowerStr kDel ≠ lowerStr k) :
    ciLookup (ciErase m kDel) k = ciLookup m k := by
  have himp : ∀ p : String × String,
      ((fun p : String × String => lowerStr p.fst == lowerStr k) p = true) →
      ((fun p : String × String => lowerStr p.fst != lowerStr kDel) p = true) := by
    intro p hp
    have hpk : lowerStr p.fst = lowerStr k := by simpa using hp
    have hne : lowerStr p.fst ≠ lowerStr kDel := by
      rw [hpk]
      exact fun hh => h hh.symm
    simpa [bne] using hne
  unfold ciLookup ciErase
  rw [find?_filter_of_imp _ _ himp]

theorem ciLookup_ciSet_self (m : List (String × String)) (k v : String) :
    ciLookup (ciSet m k v) k = some v := by
  unfold ciLookup ciSet
  rw [List.find?_append, find?_ciErase_self]
  simp [List.find?]

theorem ciLookup_ciSet_ne (m : List (String × String)) (kSet v k : String)
    (h : lowerStr kSet ≠ lowerStr k) :
    ciLookup (ciSet m kSet v) k = ciLookup m k := by
  unfold ciSet
  have hx : ¬ ((fun p : String × String => lowerStr p.fst == lowerStr k) (kSet, v)) = true := by
    simpa using h
  unfold ciLookup
  rw [find?_append_single_of_neg (fun p : String × String => lowerStr p.fst == lowerStr k)
      (kSet, v) hx (ciErase m kSet)]
  have := ciLookup_ciErase_ne m kSet k h
  unfold ciLookup at this
  exact this

theorem ciLookup_merge_headers_absent (callH : List (String × String)) :
    ∀ (s : List (String × String)) (k : String),
    (∀ p ∈ callH, lowerStr p.fst ≠ lowerStr k) →
    ciLookup (merge_headers s callH) k = ciLookup s k := by
  induction callH with
  | nil => intro s k _; rfl
  | cons a t ih =>
    intro s k h
    have hstep : merge_headers s (a :: t) = merge_headers (ciSet s a.fst a.snd) t := rfl
    rw [hstep, ih _ _ (fun p hp => h p (List.mem_cons_of_mem a hp)),
        ciLookup_ciSet_ne _ _ _ _ (h a (List.mem_cons_self a t))]

theorem mem_dictSet {m : List (String × String)} {k v : String}
    {p : String × String} (h : p ∈ dictSet m k v) : p ∈ m ∨ p.fst = k := by
  unfold dictSet at h
  by_cases hc : dictContains m k = true
  · rw [if_pos hc] at h
    obtain ⟨q, hq, hfq⟩ := List.mem_map.mp h
    by_cases hqk : (q.fst == k) = true
    · right
      rw [← hfq]
      simp [hqk]
    · left
      rw [← hfq]
      simp only [hqk, if_neg, Bool.false_eq_true, not_false_iff]
      simpa [hqk] using hq
  · rw [if_neg hc] at h
    rcases List.mem_append.mp h with h1 | h1
    · exact Or.inl h1
    · right
      have : p = (k, v) := by simpa using h1
      rw [this]

theorem mem_dictUpdate {l : List (String × String)} :
    ∀ {acc : List (String × String)} {p : String × String},
    p ∈ dictUpdate acc l → p ∈ acc ∨ ∃ q ∈ l, p.fst = q.fst := by
  induction l with
  | nil => intro acc p h; exact Or.inl h
  | cons a t ih =>
    intro acc p h
    have h2 : p ∈ dictUpdate (dictSet acc a.fst a.snd) t := h
    rcases ih h2 with h1 | ⟨q, hq, hpq⟩
    · rcases mem_dictSet h1 with h3 | h3
      · exact Or.inl h3
      · exact Or.inr ⟨a, List.mem_cons_self a t, h3⟩
    · exact Or.inr ⟨q, List.mem_cons_of_mem a hq, hpq⟩

theorem mem_buildRequestHeaders {hs : Option (List (String × String))} {b : Bool}
    {p : String × String} (h : p ∈ buildRequestHeaders hs b) :
    ∃ q ∈ hs.getD [], p.fst = q.fst := by
  have hsub : p ∈ dictUpdate [] (hs.getD []) := by
    have hh : buildRequestHeaders hs b
        = (if b then
            (if dictContains (dictUpdate [] (hs.getD [])) "Content-Type" then
              dictErase (dictUpdate [] (hs.getD [])) "Content-Type"
            else dictUpdate [] (hs.getD []))
          else dictUpdate [] (hs.getD [])) := by
      cases hs <;> rfl
    rw [hh] at h
    split at h
    · split at h
      · unfold dictErase at h
        exact (List.mem_filter.mp h).1
      · exact h
    · exact h
  rcases mem_dictUpdate hsub with h1 | h1
  · exact absurd h1 (List.not_mem_nil p)
  · exact h1

theorem ciLookup_prepareContentType_ne (merged : List (String × String))
    (d : Dispatch) (k : String) (h : lowerStr "Content-Type" ≠ lowerStr k) :
    ciLookup (prepareContentType merged d) k = ciLookup merged k := by
  unfold prepareContentType
  split
  · split
    · exact ciLookup_ciSet_ne _ _ _ _ h
    · rfl
  · split
    · split
      · exact ciLookup_ciSet_ne _ _ _ _ h
      · rfl
    · split
      · split
        · exact ciLookup_ciSet_ne _ _ _ _ h
        · rfl
      · rfl

theorem ciLookup_outgoing_eq_session (st : SDKState) (m u : String) (kw : Kwargs)
    (k : String) (hk : ∀ p ∈ kw.headers.getD [], lowerStr p.fst ≠ lowerStr k)
    (hct : lowerStr "Content-Type" ≠ lowerStr k) :
    ciLookup (outgoingRequestHeaders st m u kw) k
      = ciLookup st.session.headers k := by
  unfold outgoingRequestHeaders
  rw [ciLookup_prepareContentType_ne _ _ _ hct]
  apply ciLookup_merge_headers_absent
  intro p hp
  obtain ⟨q, hq, hpq⟩ := mem_buildRequestHeaders hp
  rw [hpq]
  exact hk q hq

/-! ### Helper lemmas on slash stripping -/

theorem head?_dropWhile_slash (l : List Char) :
    (l.dropWhile (fun c => c == '/')).head? = some '/' → False := by
  induction l with
  | nil => intro h; simp [List.dropWhile] at h
  | cons a t ih =>
    intro h
    by_cases ha : a = '/'
    · rw [List.dropWhile_cons_of_pos (by simp [ha])] at h
      exact ih h
    · rw [List.dropWhile_cons_of_neg (by simp [ha])] at h
      simp at h
      exact ha h

/-! ### Helper lemmas on the retry loop -/

theorem runRetries_consumed_le (r : RetryState) (method : String) :
    ∀ (trace : List AttemptOutcome) (left : Nat),
    (runRetries r method trace left).snd ≤ left + 1 := by
  intro trace
  induction trace with
  | nil => intro left; simp [runRetries]
  | cons a t ih =>
    intro left
    cases a with
    | status resp =>
      by_cases h1 : retryableStatus r method resp.statusCode = true
      · by_cases h2 : 0 < left
        · simp only [runRetries, h1, if_true, h2, if_pos]
          have := ih (left - 1)
          omega
        · simp [runRetries, h1, h2]
      · simp [runRetries, h1]
    | connFail m =>
      by_cases h2 : 0 < left
      · simp only [runRetries, h2, if_pos]
        have := ih (left - 1)
        omega
      · simp [runRetries, h2]

theorem runRetries_exhausts (r : RetryState) (method : String)
    (resp : HttpResponse)
    (hr : retryableStatus r method resp.statusCode = true) :
    ∀ (left n : Nat), left < n →
    runRetries r method (List.replicate n (AttemptOutcome.status resp)) left
      = (TransportResult.requestExc "too many retries with status", left + 1) := by
  intro left
  induction left with
  | zero =>
    intro n hn
    obtain ⟨m, rfl⟩ : ∃ m, n = m + 1 := ⟨n - 1, by omega⟩
    rw [List.replicate_succ]
    simp [runRetries, hr]
  | succ k ih =>
    intro n hn
    obtain ⟨m, rfl⟩ : ∃ m, n = m + 1 := ⟨n - 1, by omega⟩
    rw [List.replicate_succ]
    simp only [runRetries, hr, if_true]
    rw [if_pos (by omega : 0 < k + 1)]
    have : k + 1 - 1 = k := by omega
    rw [this, ih m (by omega)]

theorem runRetries_status_then_success (r : RetryState) (method : String)
    (respR respS : HttpResponse)
    (hr : retryableStatus r method respR.statusCode = true)
    (hs : retryableStatus r method respS.statusCode = false) :
    ∀ n, runRetries r method
        (List.replicate n (AttemptOutcome.status respR)
          ++ [AttemptOutcome.status respS]) n
      = (TransportResult.response respS, n + 1) := by
  intro n
  induction n with
  | zero =>
    simp [runRetries, hs]
  | succ k ih =>
    rw [List.replicate_succ, List.cons_append]
    simp only [runRetries, hr, if_true]
    rw [if_pos (by omega : 0 < k + 1)]
    have hk : k + 1 - 1 = k := by omega
    rw [hk, ih]

theorem runRetries_connfail_then_success (r : RetryState) (method msg : String)
    (respS : HttpResponse)
    (hs : retryableStatus r method respS.statusCode = false) :
    ∀ n, runRetries r method
        (List.replicate n (AttemptOutcome.connFail msg)
          ++ [AttemptOutcome.status respS]) n
      = (TransportResult.response respS, n + 1) := by
  intro n
  induction n with
  | zero =>
    simp [runRetries, hs]
  | succ k ih =>
    rw [List.replicate_succ, List.cons_append]
    simp only [runRetries]
    rw [if_pos (by omega : 0 < k + 1)]
    have hk : k + 1 - 1 = k := by omega
    rw [hk, ih]

theorem get_backoff_time_nondecreasing (r : RetryState)
    (hf : 0 ≤ r.backoff_factor) (n : Nat) :
    get_backoff_time r n ≤ get_backoff_time r (n + 1) := by
  unfold get_backoff_time
  by_cases h1 : n ≤ 1
  · rw [if_pos h1]
    by_cases h2 : n + 1 ≤ 1
    · rw [if_pos h2]
    · rw [if_neg h2]
      have hv : (0 : ℚ) ≤ r.backoff_factor * 2 ^ (n + 1 - 1) := by positivity
      have h120 : (0 : ℚ) ≤ DEFAULT_BACKOFF_MAX := by norm_num [DEFAULT_BACKOFF_MAX]
      exact le_min h120 hv
  · rw [if_neg h1, if_neg (by omega)]
    apply min_le_min (le_refl _)
    apply mul_le_mul_of_nonneg_left _ hf
    apply pow_le_pow_right₀ (by norm_num)
    omega

/-! ### Claim theorems -/

/-- C1 (counterexample to the claim as stated): a 304 Not Modified response
is not 2xx, yet `request` returns it as a success and raises nothing,
because the code keys the error path on `response.ok`
(false only for statuses 400–599). -/
theorem C1_counterexample_304_returned :
    (requestOp st0 "GET" "/v1/documents" {}
        (fun _ => TransportResult.response resp304)).fst = Except.ok resp304
    ∧ (resp304.statusCode < 200 ∨ 300 ≤ resp304.statusCode) :=
  ⟨rfl, Or.inr (by decide)⟩

/-- C1 (amended): for every response whose status code is in 400–599,
`request` raises exactly one TypedError whose kind follows the §4.4
status-code table, whose requestId equals the response's `x-request-id`
header when present and is absent otherwise, and whose message comes from
the JSON-parsed error body, synthesized from the raw body text or
"Unknown error" when the body is not valid JSON. -/
theorem C1_error_translation (st : SDKState) (m u : String) (kw : Kwargs)
    (tr : Dispatch → TransportResult) (r : HttpResponse)
    (hresp : tr (prepareDispatch st m u kw) = TransportResult.response r)
    (h4 : 400 ≤ r.statusCode) (h6 : r.statusCode < 600) :
    ∃ e : TypedError,
      (requestOp st m u kw tr).fst = Except.error e
      ∧ e.kind = statusToKind r.statusCode
      ∧ e.statusCode = some r.statusCode
      ∧ e.requestId = ciLookup r.headers "x-request-id"
      ∧ e.message = (match r.json with
          | some p => p.message.getD "Unknown error"
          | none => if r.text = "" then "Unknown error" else r.text) := by
  have hok : ¬ (r.statusCode < 400 ∨ 600 ≤ r.statusCode) := by omega
  refine ⟨create_error_from_response r.statusCode
      (match r.json with
       | some p => p
       | none => { message := some (if r.text = "" then "Unknown error" else r.text) })
      (ciLookup r.headers "x-request-id"), ?_, rfl, rfl, rfl, ?_⟩
  · simp only [requestOp, hresp, handleResponse]
    rw [if_neg hok]
  · cases hj : r.json with
    | none => simp [create_error_from_response]
    | some p => simp [create_error_from_response]

/-- C1 (witness): the §8 example — a 404 with body message "not found" and
header `x-request-id: abc123` raises a NotFoundError carrying that message,
status and request id. -/
theorem C1_error_translation_witness :
    ∃ e : TypedError,
      (requestOp st0 "GET" "/v1/documents" {}
          (fun _ => TransportResult.response resp404)).fst = Except.error e
      ∧ e.kind = statusToKind resp404.statusCode
      ∧ e.statusCode = some resp404.statusCode
      ∧ e.requestId = ciLookup resp404.headers "x-request-id"
      ∧ e.message = (match resp404.json with
          | some p => p.message.getD "Unknown error"
          | none => if resp404.text = "" then "Unknown error" else resp404.text) :=
  C1_error_translation st0 "GET" "/v1/documents" {}
    (fun _ => TransportResult.response resp404) resp404 rfl (by decide) (by decide)

/-- C2 (the code at the failing input): on `upload_file` the per-call header
dictionary indeed carries no `Content-Type`, but the outgoing HTTP request —
session defaults merged with the per-call dict — still carries the session's
fixed `Content-Type: application/json`, so the multipart boundary content
type is never set.  This contradicts the claim that an upload never sends
the fixed JSON content type. -/
theorem C2_upload_sends_fixed_json_content_type :
    dictGet (prepareDispatch st0 "POST" "/documents/upload"
        (upload_kwargs "FILEDATA" none)).headers "Content-Type" = none
    ∧ ciLookup (outgoingRequestHeaders st0 "POST" "/documents/upload"
        (upload_kwargs "FILEDATA" none)) "Content-Type" = some "application/json"
    ∧ (upload_kwargs "FILEDATA" none).files.isSome = true :=
  ⟨rfl, rfl, rfl⟩

/-- C3: whenever the transport returns a response with a 2xx status,
`request` returns exactly that response — same status, headers and body —
and raises nothing. -/
theorem C3_success_passthrough (st : SDKState) (m u : String) (kw : Kwargs)
    (tr : Dispatch → TransportResult) (r : HttpResponse)
    (hresp : tr (prepareDispatch st m u kw) = TransportResult.response r)
    (h2 : 200 ≤ r.statusCode) (h3 : r.statusCode < 300) :
    (requestOp st m u kw tr).fst = Except.ok r := by
  simp only [requestOp, hresp, handleResponse]
  rw [if_pos (by omega : r.statusCode < 400 ∨ 600 ≤ r.statusCode)]

/-- C3 (witness): a 201 response is returned as-is. -/
theorem C3_success_passthrough_witness :
    (requestOp st0 "GET" "/v1/documents" {}
        (fun _ => TransportResult.response resp201)).fst = Except.ok resp201 :=
  C3_success_passthrough st0 "GET" "/v1/documents" {}
    (fun _ => TransportResult.response resp201) resp201 rfl (by decide) (by decide)

/-- C4: transport-level failures that never produce a status code are
translated exactly as the except-clauses of `request` prescribe: a
`requests` timeout (the transport's retries already exhausted) raises
TimeoutError — whose kind is TimeoutError, not NetworkError — a connection
failure raises NetworkError carrying the underlying description, and any
other transport failure also raises NetworkError. -/
theorem C4_transport_failure_translation (st : SDKState) (m u : String)
    (kw : Kwargs) (msg : String) :
    (requestOp st m u kw (fun _ => TransportResult.timeoutExc)).fst
        = Except.error (timeoutError "Request timeout")
    ∧ (timeoutError "Request timeout").kind = ErrorKind.TimeoutError
    ∧ ((timeoutError "Request timeout").kind == ErrorKind.NetworkError) = false
    ∧ (requestOp st m u kw (fun _ => TransportResult.connectionExc msg)).fst
        = Except.error (networkError ("Network error: " ++ msg))
    ∧ (networkError ("Network error: " ++ msg)).kind = ErrorKind.NetworkError
    ∧ (requestOp st m u kw (fun _ => TransportResult.requestExc msg)).fst
        = Except.error (networkError ("Request error: " ++ msg))
    ∧ (networkError ("Request error: " ++ msg)).kind = ErrorKind.NetworkError :=
  ⟨rfl, rfl, rfl, rfl, rfl, rfl, rfl⟩

/-- C5: constructing a client from a configuration with none of apiKey,
oauth or jwt present fails in `_validate_config` — before the transport
session is created — with a ConfigurationError; no network call is
performed (construction never dispatches through the transport). -/
theorem C5_missing_credentials (cfg : SDKConfiguration)
    (h1 : truthyOptStr cfg.api_key = false) (h2 : cfg.oauth = none)
    (h3 : cfg.jwt = none) :
    validate_config cfg = Except.error
        (configurationError "API key, OAuth configuration, or JWT token is required")
    ∧ initSDK cfg = Except.error
        (configurationError "API key, OAuth configuration, or JWT token is required")
    ∧ (configurationError
        "API key, OAuth configuration, or JWT token is required").kind
        = ErrorKind.ConfigurationError := by
  have hcond : (!truthyOptStr cfg.api_key && !cfg.oauth.isSome && !cfg.jwt.isSome)
      = true := by
    rw [h1, h2, h3]
    rfl
  have hv : validate_config cfg = Except.error
      (configurationError "API key, OAuth configuration, or JWT token is required") := by
    unfold validate_config
    rw [hcond]
    rfl
  refine ⟨hv, ?_, rfl⟩
  unfold initSDK
  rw [hv]
  rfl

/-- C6: the transport session is configured so that the retry budget is the
configured retryCount (total attempts = 1 + retryCount: at most, and exactly
when every attempt fails retryably), retries fire on network-level failures
and on statuses 429/500/502/503/504, the retryable methods are exactly
GET/HEAD/PUT/DELETE/OPTIONS/TRACE/POST, the backoff delay is derived from
retryDelayMs and is monotonically non-decreasing per attempt, and the
timeout handed to each attempt is the configured timeoutMs (in seconds,
`timeout / 1000`). -/
theorem C6_transport_retry_configuration (cfg : SDKConfiguration) :
    (create_session cfg).retry.total = cfg.retries
    ∧ (create_session cfg).retry.status_forcelist = [429, 500, 502, 503, 504]
    ∧ (∀ m, m ∈ (create_session cfg).retry.allowed_methods ↔
        m ∈ ["GET", "HEAD", "PUT", "DELETE", "OPTIONS", "TRACE", "POST"])
    ∧ (create_session cfg).retry.backoff_factor = (cfg.retry_delay : ℚ) / 1000
    ∧ (∀ n, get_backoff_time (create_session cfg).retry n
        ≤ get_backoff_time (create_session cfg).retry (n + 1))
    ∧ (∀ trace left,
        (runRetries (create_session cfg).retry "GET" trace left).snd ≤ left + 1)
    ∧ runRetries (create_session cfg).retry "GET"
        (List.replicate cfg.retries (AttemptOutcome.status resp503)
          ++ [AttemptOutcome.status resp200]) cfg.retries
        = (TransportResult.response resp200, cfg.retries + 1)
    ∧ runRetries (create_session cfg).retry "GET"
        (List.replicate cfg.retries (AttemptOutcome.connFail "connection reset")
          ++ [AttemptOutcome.status resp200]) cfg.retries
        = (TransportResult.response resp200, cfg.retries + 1)
    ∧ (∀ k, runRetries (create_session cfg).retry "GET"
        (List.replicate (cfg.retries + 1 + k) (AttemptOutcome.status resp503))
        cfg.retries
        = (TransportResult.requestExc "too many retries with status",
           cfg.retries + 1))
    ∧ (∀ st m u kw, (prepareDispatch st m u kw).timeout
        = (st.config.timeout : ℚ) / 1000) := by
  have hr503 : retryableStatus (create_session cfg).retry "GET" resp503.statusCode
      = true := rfl
  have hr200 : retryableStatus (create_session cfg).retry "GET" resp200.statusCode
      = false := rfl
  refine ⟨rfl, rfl, ?_, rfl, ?_, ?_, ?_, ?_, ?_, fun st m u kw => rfl⟩
  · intro m
    show m ∈ ["HEAD", "GET", "PUT", "DELETE", "OPTIONS", "TRACE", "POST"] ↔ _
    simp only [List.mem_cons, List.not_mem_nil, or_false]
    tauto
  · intro n
    apply get_backoff_time_nondecreasing
    show (0 : ℚ) ≤ (cfg.retry_delay : ℚ) / 1000
    positivity
  · exact runRetries_consumed_le _ _
  · exact runRetries_status_then_success _ _ _ _ hr503 hr200 cfg.retries
  · exact runRetries_connfail_then_success _ _ _ _ hr200 cfg.retries
  · intro k
    exact runRetries_exhausts _ _ _ hr503 cfg.retries (cfg.retries + 1 + k)
      (by omega)

/-- C7: after `clear_auth` the stored credential and the session's
Authorization header are both removed and the next outgoing request (one
that does not itself override Authorization) carries no Authorization
header; after `set_auth_token tok` the stored credential is replaced and
the next outgoing request carries `Authorization: Bearer tok`. -/
theorem C7_auth_mutation (st : SDKState) (tok m u : String) (kw : Kwargs)
    (h : ∀ p ∈ kw.headers.getD [], lowerStr p.fst ≠ lowerStr "Authorization") :
    (clear_auth st).config.api_key = none
    ∧ ciLookup (clear_auth st).session.headers "Authorization" = none
    ∧ ciLookup (outgoingRequestHeaders (clear_auth st) m u kw) "Authorization"
        = none
    ∧ (set_auth_token st tok).config.api_key = some tok
    ∧ ciLookup (set_auth_token st tok).session.headers "Authorization"
        = some ("Bearer " ++ tok)
    ∧ ciLookup (outgoingRequestHeaders (set_auth_token st tok) m u kw)
        "Authorization" = some ("Bearer " ++ tok) := by
  have hct : lowerStr "Content-Type" ≠ lowerStr "Authorization" := by decide
  have hclear : ∀ hs : List (String × String),
      ciLookup (if (ciLookup hs "Authorization").isSome then
        ciErase hs "Authorization" else hs) "Authorization" = none := by
    intro hs
    by_cases ho : (ciLookup hs "Authorization").isSome = true
    · rw [if_pos ho]
      exact ciLookup_ciErase_self _ _
    · rw [if_neg ho]
      cases ho2 : ciLookup hs "Authorization" with
      | none => rfl
      | some v => rw [ho2] at ho; simp at ho
  have hset : ciLookup (set_auth_token st tok).session.headers "Authorization"
      = some ("Bearer " ++ tok) := ciLookup_ciSet_self _ _ _
  refine ⟨rfl, hclear st.session.headers, ?_, rfl, hset, ?_⟩
  · rw [ciLookup_outgoing_eq_session _ _ _ _ _ h hct]
    exact hclear st.session.headers
  · rw [ciLookup_outgoing_eq_session _ _ _ _ _ h hct]
    exact hset

/-- C7 (witness): the fixture client, token "X", a call with no per-call
headers. -/
theorem C7_auth_mutation_witness :
    (clear_auth st0).config.api_key = none
    ∧ ciLookup (clear_auth st0).session.headers "Authorization" = none
    ∧ ciLookup (outgoingRequestHeaders (clear_auth st0) "GET" "/v1/documents" {})
        "Authorization" = none
    ∧ (set_auth_token st0 "X").config.api_key = some "X"
    ∧ ciLookup (set_auth_token st0 "X").session.headers "Authorization"
        = some ("Bearer " ++ "X")
    ∧ ciLookup (outgoingRequestHeaders (set_auth_token st0 "X") "GET"
        "/v1/documents" {}) "Authorization" = some ("Bearer " ++ "X") :=
  C7_auth_mutation st0 "X" "GET" "/v1/documents" {}
    (fun p hp => absurd hp (List.not_mem_nil p))

/-- C8: `request` joins the base URL and the relative path with exactly one
separating slash: the full URL is the slash-right-stripped base, one slash,
then the slash-left-stripped path — the stripped base never ends in a slash
and the stripped path never starts with one, whatever the inputs. -/
theorem C8_url_join_single_slash (base path : String) :
    full_url base path = rstripSlash base ++ "/" ++ lstripSlash path
    ∧ (rstripSlash base).data.getLast? ≠ some '/'
    ∧ (lstripSlash path).data.head? ≠ some '/'
    ∧ (∀ st m kw, (prepareDispatch st m path kw).url
        = full_url st.config.base_url path) := by
  refine ⟨rfl, ?_, ?_, fun st m kw => rfl⟩
  · intro hcontra
    have hdata : (rstripSlash base).data
        = (base.data.reverse.dropWhile (fun c => c == '/')).reverse := rfl
    rw [hdata, List.getLast?_reverse] at hcontra
    exact head?_dropWhile_slash _ hcontra
  · intro hcontra
    exact head?_dropWhile_slash path.data hcontra

/-- C8 (witness): a base URL with a trailing slash and a path with a leading
slash join with exactly one slash. -/
theorem C8_url_join_single_slash_witness :
    full_url "https://api.example.com/" "/v1/documents"
      = rstripSlash "https://api.example.com/" ++ "/" ++ lstripSlash "/v1/documents"
    ∧ (rstripSlash "https://api.example.com/").data.getLast? ≠ some '/'
    ∧ (lstripSlash "/v1/documents").data.head? ≠ some '/'
    ∧ (∀ st m kw, (prepareDispatch st m "/v1/documents" kw).url
        = full_url st.config.base_url "/v1/documents") :=
  C8_url_join_single_slash "https://api.example.com/" "/v1/documents"

/-- C9: at construction, a credentialled configuration validates to itself
except that an empty baseUrl is resolved from the environment through the
fixed three-entry table — development and staging map to their fixed
origins, and every other environment string yields production's URL — while
a non-empty baseUrl is left unchanged. -/
theorem C9_base_url_defaulting (cfg : SDKConfiguration) (env : String)
    (h : (truthyOptStr cfg.api_key || cfg.oauth.isSome || cfg.jwt.isSome) = true) :
    validate_config cfg = Except.ok (if cfg.base_url = ""
        then { cfg with base_url := resolveBaseUrl cfg.environment }
        else cfg)
    ∧ resolveBaseUrl env
        = (if env = "development" then "https://api-dev.docusign-alternative.com"
           else if env = "staging" then "https://api-staging.docusign-alternative.com"
           else "https://api.docusign-alternative.com") := by
  constructor
  · have hcond : (!truthyOptStr cfg.api_key && !cfg.oauth.isSome && !cfg.jwt.isSome)
        = false := by
      cases ha : truthyOptStr cfg.api_key <;>
        cases hb : cfg.oauth.isSome <;>
          cases hc : cfg.jwt.isSome <;> simp_all
    unfold validate_config
    rw [hcond]
    rfl
  · by_cases h1 : env = "development"
    · subst h1; rfl
    · by_cases h2 : env = "staging"
      · subst h2; rfl
      · by_cases h3 : env = "production"
        · subst h3; rfl
        · have e1 : (("development" : String) == env) = false :=
            beq_eq_false_iff_ne.mpr (fun hh => h1 hh.symm)
          have e2 : (("staging" : String) == env) = false :=
            beq_eq_false_iff_ne.mpr (fun hh => h2 hh.symm)
          have e3 : (("production" : String) == env) = false :=
            beq_eq_false_iff_ne.mpr (fun hh => h3 hh.symm)
          rw [if_neg h1, if_neg h2]
          unfold resolveBaseUrl base_urls dictGet
          simp [List.find?, e1, e2, e3]

/-- C9 (witness): with an API key, an empty base URL and the environment
"weird", validation resolves the base URL to production's origin. -/
theorem C9_base_url_defaulting_witness :
    validate_config cfgEnvDefault = Except.ok (if cfgEnvDefault.base_url = ""
        then { cfgEnvDefault with base_url := resolveBaseUrl cfgEnvDefault.environment }
        else cfgEnvDefault)
    ∧ resolveBaseUrl "weird"
        = (if "weird" = "development" then "https://api-dev.docusign-alternative.com"
           else if "weird" = "staging" then "https://api-staging.docusign-alternative.com"
           else "https://api.docusign-alternative.com") :=
  C9_base_url_defaulting cfgEnvDefault "weird" rfl

/-- C10: no call to `request`, to the convenience verbs, or to `upload_file`
mutates the client's stored configuration or the session's default headers:
the state each operation returns — whatever the transport does — is the
state it was given, so the session headers and configuration are identical
before and after every request. -/
theorem C10_requests_do_not_mutate_state (st : SDKState) (m u fd : String)
    (kw : Kwargs) (ad : Option (List (String × String)))
    (tr : Dispatch → TransportResult) :
    (requestOp st m u kw tr).snd = st
    ∧ (getOp st u kw tr).snd = st
    ∧ (postOp st u kw tr).snd = st
    ∧ (putOp st u kw tr).snd = st
    ∧ (patchOp st u kw tr).snd = st
    ∧ (deleteOp st u kw tr).snd = st
    ∧ (upload_file st u fd ad tr).snd = st
    ∧ (requestOp st m u kw tr).snd.session.headers = st.session.headers
    ∧ (requestOp st m u kw tr).snd.config = st.config :=
  ⟨rfl, rfl, rfl, rfl, rfl, rfl, rfl, rfl, rfl⟩

/-- C5 (witness): the concrete credential-less configuration. -/
theorem C5_missing_credentials_witness :
    validate_config cfgNoCred = Except.error
        (configurationError "API key, OAuth configuration, or JWT token is required")
    ∧ initSDK cfgNoCred = Except.error
        (configurationError "API key, OAuth configuration, or JWT token is required")
    ∧ (configurationError
        "API key, OAuth configuration, or JWT token is required").kind
        = ErrorKind.ConfigurationError :=
  C5_missing_credentials cfgNoCred rfl rfl rfl

end Signtusk
